import Mathlib

/-!
Shallow embedding of the dashboard client in
`webui/dist/assets/js/js_core/funcionalidades.js` and of the React upload page
`frontend/src/pages/UploadPage.jsx`.

Modelling conventions:
* Numeric payload values (CPU percent, memory, queue sizes) are carried as
  `Nat`; the handlers only pass them through to the display, so the value
  domain is opaque for every property proved here (the `toFixed` formatting
  of a number is absorbed into `Cell.num`).
* The text content of each metric card element is a `Cell`: `Cell.unset` is
  the content the element had before any script write (the unknown
  placeholder from the HTML), `Cell.dash` is the literal placeholder written
  as two dashes, `Cell.num v` is a rendered number, and `Cell.erro` is the
  text written by the polling error path.
* A JSON key that is absent (`undefined`) is `Option.none`.
* DOM elements are assumed present (the guards `if (cpuEl) ...` succeed on
  the dashboard page).
-/

namespace WebUI

/-- Text content of one metric card element. -/
inductive Cell where
  | unset
  | dash
  | num (v : Nat)
  | erro
  deriving DecidableEq

/-- The `system` block of an SSE event or of a `/api/status/detailed`
response: `cpu_percent`, `memory_percent`, `memory_used_gb`,
`memory_total_gb`, each possibly absent. -/
structure SystemBlock where
  cpu_percent : Option Nat
  memory_percent : Option Nat
  memory_used_gb : Option Nat
  memory_total_gb : Option Nat
  deriving DecidableEq

/-- The `queue` block of an SSE event. -/
structure QueueBlock where
  total_transcriptions : Option Nat
  web_size : Option Nat
  gdrive_size : Option Nat
  deriving DecidableEq

/-- One entry of the `workers` block; its `status` key may be absent. -/
structure WorkerInfo where
  status : Option String
  deriving DecidableEq

/-- The `workers` block of an SSE event; `web` and `gdrive` entries may be
absent. -/
structure WorkersBlock where
  web : Option WorkerInfo
  gdrive : Option WorkerInfo
  deriving DecidableEq

/-- A successfully parsed SSE event payload, with optional top-level keys
`system`, `queue`, `workers`. -/
structure SSEData where
  system : Option SystemBlock
  queue : Option QueueBlock
  workers : Option WorkersBlock
  deriving DecidableEq

/-- A successfully fetched and parsed `/api/status/detailed` response. -/
structure DetailedStatus where
  total_transcriptions : Option Nat
  queue_web_size : Option Nat
  queue_gdrive_size : Option Nat
  system : Option SystemBlock
  deriving DecidableEq

/-- The dashboard card elements written by `connectSSE` and
`updateDashboardCards`, plus the `system-status` element. -/
structure Display where
  cpu : Cell
  ram : Cell
  ramUsed : Cell
  ramTotal : Cell
  totalTrans : Cell
  queueWeb : Cell
  queueGdrive : Cell
  systemStatus : Option String
  deriving DecidableEq

/-- The page before any handler has written to it. -/
def Display.blank : Display :=
  ⟨Cell.unset, Cell.unset, Cell.unset, Cell.unset, Cell.unset, Cell.unset,
    Cell.unset, none⟩

/-- `x !== undefined ? x.toFixed(k) : "--"`. -/
def renderOpt (o : Option Nat) : Cell :=
  match o with
  | some v => Cell.num v
  | none => Cell.dash

/-- `x !== undefined ? x : 0` (used by the SSE queue block). -/
def renderOptZero (o : Option Nat) : Cell :=
  match o with
  | some v => Cell.num v
  | none => Cell.num 0

/-- `data.workers.web?.status || "Desconhecido"`: optional chaining, then the
JS `||` default which also replaces an empty-string status (falsy). -/
def workerStatus (o : Option WorkerInfo) : String :=
  match o with
  | some info =>
    match info.status with
    | some s => if s = "" then "Desconhecido" else s
    | none => "Desconhecido"
  | none => "Desconhecido"

/-- `(webStatus === "running" && gdriveStatus === "running") ? "Operacional"
: "Problemas"`. -/
def overallStatus (w : WorkersBlock) : String :=
  if workerStatus w.web = "running" ∧ workerStatus w.gdrive = "running" then
    "Operacional"
  else
    "Problemas"

/-- The body of `eventSource.onmessage` after a successful `JSON.parse`
(`funcionalidades.js` lines 45-99): the `system`, `queue` and `workers`
blocks, when present, each overwrite their group of elements. -/
def applyRealtime (d : SSEData) (st : Display) : Display :=
  let st1 :=
    match d.system with
    | none => st
    | some s =>
      { st with
        cpu := renderOpt s.cpu_percent
        ram := renderOpt s.memory_percent
        ramUsed := renderOpt s.memory_used_gb
        ramTotal := renderOpt s.memory_total_gb }
  let st2 :=
    match d.queue with
    | none => st1
    | some q =>
      { st1 with
        totalTrans := renderOptZero q.total_transcriptions
        queueWeb := renderOptZero q.web_size
        queueGdrive := renderOptZero q.gdrive_size }
  match d.workers with
  | none => st2
  | some w => { st2 with systemStatus := some (overallStatus w) }

/-- The success path of `updateDashboardCards` (lines 111-142): top-level
queue fields are written only when defined; a present `system` block
overwrites all four system cells with a dash default for absent subfields. -/
def applyPolled (d : DetailedStatus) (st : Display) : Display :=
  let st1 :=
    match d.total_transcriptions with
    | some v => { st with totalTrans := Cell.num v }
    | none => st
  let st2 :=
    match d.queue_web_size with
    | some v => { st1 with queueWeb := Cell.num v }
    | none => st1
  let st3 :=
    match d.queue_gdrive_size with
    | some v => { st2 with queueGdrive := Cell.num v }
    | none => st2
  match d.system with
  | none => st3
  | some s =>
    { st3 with
      cpu := renderOpt s.cpu_percent
      ram := renderOpt s.memory_percent
      ramUsed := renderOpt s.memory_used_gb
      ramTotal := renderOpt s.memory_total_gb }

/-- The `catch` block of `updateDashboardCards` (lines 144-152): a failed or
non-2xx fetch writes the text `Erro` into exactly five cells. -/
def applyPolledError (st : Display) : Display :=
  { st with
    totalTrans := Cell.erro
    queueWeb := Cell.erro
    queueGdrive := Cell.erro
    cpu := Cell.erro
    ram := Cell.erro }

/-- The inputs the SSE connection can deliver: a parsed message, a message
whose `JSON.parse` threw, or a transport-level error (`onerror`). -/
inductive SSEInput where
  | message (d : SSEData)
  | malformedMessage
  | transportError
  deriving DecidableEq

/-- One step of the SSE connection: a malformed message is logged and
discarded inside the `catch` (lines 96-98); `onerror` writes the error
status text (lines 101-107). The function is total, so no exception escapes
the handler. -/
def sseStep (st : Display) (i : SSEInput) : Display :=
  match i with
  | SSEInput.message d => applyRealtime d st
  | SSEInput.malformedMessage => st
  | SSEInput.transportError => { st with systemStatus := some "Erro na conexão" }

/-- A successful update from either channel, in arrival order. -/
inductive Update where
  | realtime (d : SSEData)
  | polled (d : DetailedStatus)
  deriving DecidableEq

def applyUpdate (u : Update) (st : Display) : Display :=
  match u with
  | Update.realtime d => applyRealtime d st
  | Update.polled d => applyPolled d st

/-- Applying an interleaved sequence of updates in arrival order. -/
def applyUpdates (us : List Update) (st : Display) : Display :=
  us.foldl (fun s u => applyUpdate u s) st

/-- The seven metric card fields shared by the two channels. -/
inductive CardField where
  | cpu
  | ram
  | ramUsed
  | ramTotal
  | totalTrans
  | queueWeb
  | queueGdrive
  deriving DecidableEq

def Display.cell (st : Display) : CardField → Cell
  | CardField.cpu => st.cpu
  | CardField.ram => st.ram
  | CardField.ramUsed => st.ramUsed
  | CardField.ramTotal => st.ramTotal
  | CardField.totalTrans => st.totalTrans
  | CardField.queueWeb => st.queueWeb
  | CardField.queueGdrive => st.queueGdrive

/-- The cell value an update writes into a field, or `none` when the update
leaves the field untouched: a realtime update writes every field of each
top-level block it carries (with the dash or zero default for absent
subfields), a polled update writes the top-level queue fields it carries and
every system field when its `system` block is present. -/
def writeOf (u : Update) : CardField → Option Cell
  | CardField.cpu =>
    match u with
    | Update.realtime d => d.system.map (fun s => renderOpt s.cpu_percent)
    | Update.polled d => d.system.map (fun s => renderOpt s.cpu_percent)
  | CardField.ram =>
    match u with
    | Update.realtime d => d.system.map (fun s => renderOpt s.memory_percent)
    | Update.polled d => d.system.map (fun s => renderOpt s.memory_percent)
  | CardField.ramUsed =>
    match u with
    | Update.realtime d => d.system.map (fun s => renderOpt s.memory_used_gb)
    | Update.polled d => d.system.map (fun s => renderOpt s.memory_used_gb)
  | CardField.ramTotal =>
    match u with
    | Update.realtime d => d.system.map (fun s => renderOpt s.memory_total_gb)
    | Update.polled d => d.system.map (fun s => renderOpt s.memory_total_gb)
  | CardField.totalTrans =>
    match u with
    | Update.realtime d => d.queue.map (fun q => renderOptZero q.total_transcriptions)
    | Update.polled d => d.total_transcriptions.map Cell.num
  | CardField.queueWeb =>
    match u with
    | Update.realtime d => d.queue.map (fun q => renderOptZero q.web_size)
    | Update.polled d => d.queue_web_size.map Cell.num
  | CardField.queueGdrive =>
    match u with
    | Update.realtime d => d.queue.map (fun q => renderOptZero q.gdrive_size)
    | Update.polled d => d.queue_gdrive_size.map Cell.num

/-- The payload value an update carries for a field (`none` when the field is
absent from the update): this is the sense in which an update "sets" a field
in the specification. -/
def setsOf (u : Update) : CardField → Option Nat
  | CardField.cpu =>
    match u with
    | Update.realtime d => d.system.bind SystemBlock.cpu_percent
    | Update.polled d => d.system.bind SystemBlock.cpu_percent
  | CardField.ram =>
    match u with
    | Update.realtime d => d.system.bind SystemBlock.memory_percent
    | Update.polled d => d.system.bind SystemBlock.memory_percent
  | CardField.ramUsed =>
    match u with
    | Update.realtime d => d.system.bind SystemBlock.memory_used_gb
    | Update.polled d => d.system.bind SystemBlock.memory_used_gb
  | CardField.ramTotal =>
    match u with
    | Update.realtime d => d.system.bind SystemBlock.memory_total_gb
    | Update.polled d => d.system.bind SystemBlock.memory_total_gb
  | CardField.totalTrans =>
    match u with
    | Update.realtime d => d.queue.bind QueueBlock.total_transcriptions
    | Update.polled d => d.total_transcriptions
  | CardField.queueWeb =>
    match u with
    | Update.realtime d => d.queue.bind QueueBlock.web_size
    | Update.polled d => d.queue_web_size
  | CardField.queueGdrive =>
    match u with
    | Update.realtime d => d.queue.bind QueueBlock.gdrive_size
    | Update.polled d => d.queue_gdrive_size

/-- Last element of a list, or the default when the list is empty. -/
def lastD {α : Type} : List α → α → α
  | [], dflt => dflt
  | c :: rest, _ => lastD rest c

/-- One file in a batch: its name, and whether the backend accepts its
upload (`succeeds = false` covers both a non-2xx response and a network
throw). -/
structure UploadAttempt where
  name : String
  succeeds : Bool
  deriving DecidableEq

/-- One entry of the React upload page result list (`results.push` in
`handleUpload`); the backend task id and message are abstracted away. -/
structure UploadResult where
  filename : String
  status : String
  deriving DecidableEq

/-- The messages shown by `showStructuredFeedback` in the structured upload
handler, one constructor per call site. -/
inductive Feedback where
  | selecioneCurso
  | selecioneModulo
  | selecioneArquivo
  | enviando
  | progresso (k n : Nat)
  | erroArquivo (name : String)
  | sucessoTotal (k : Nat) (course modName : String)
  | falhaParcial (failed total : Nat)
  deriving DecidableEq

/-- The literal texts of the feedback messages (the dynamic backend error
text of `erroArquivo` and the quote characters around the course and module
names of `sucessoTotal` are abstracted away). -/
def Feedback.render : Feedback → String
  | Feedback.selecioneCurso =>
    "Por favor, selecione um curso existente ou digite o nome de um novo."
  | Feedback.selecioneModulo =>
    "Por favor, selecione um módulo existente ou digite o nome de um novo."
  | Feedback.selecioneArquivo => "Por favor, selecione pelo menos um arquivo."
  | Feedback.enviando => "Enviando arquivos..."
  | Feedback.progresso k n =>
    "Enviando: " ++ toString k ++ "/" ++ toString n ++ " arquivos..."
  | Feedback.erroArquivo name => "Erro ao enviar " ++ name
  | Feedback.sucessoTotal k course modName =>
    toString k ++ " arquivo(s) enviado(s) com sucesso para " ++ course
      ++ " -> " ++ modName ++ "!"
  | Feedback.falhaParcial failed total =>
    "Alguns arquivos (" ++ toString failed ++ " de " ++ toString total
      ++ ") não puderam ser enviados. Veja os erros acima."

/-- Whether a per-file feedback message reports a success. -/
def feedbackIsSuccess : Feedback → Bool
  | Feedback.progresso _ _ => true
  | _ => false

/-- Result of the per-file loop of the structured upload handler. -/
structure LoopResult where
  requests : List (String × String × String)
  trace : List Feedback
  successCount : Nat
  allSuccess : Bool
  deriving DecidableEq

/-- The `for` loop of the structured submit handler (lines 527-558): every
file is attempted in order (one `POST /api/upload_structured` per file,
carrying the course and module), a success increments `successCount` and
shows the progress message, a failure shows the per-file error and clears
`allSuccess`, and the loop is never interrupted. -/
def uploadLoop (course modName : String) (n : Nat) :
    List UploadAttempt → Nat → LoopResult
  | [], sc => ⟨[], [], sc, true⟩
  | f :: rest, sc =>
    if f.succeeds then
      let r := uploadLoop course modName n rest (sc + 1)
      ⟨(f.name, course, modName) :: r.requests,
        Feedback.progresso (sc + 1) n :: r.trace, r.successCount, r.allSuccess⟩
    else
      let r := uploadLoop course modName n rest sc
      ⟨(f.name, course, modName) :: r.requests,
        Feedback.erroArquivo f.name :: r.trace, r.successCount, false⟩

/-- JS `String.prototype.trim`: strips whitespace from both ends, modelled
over the character list (the whitespace sets of JS and of
`Char.isWhitespace` coincide on the inputs considered). -/
def jsTrim (s : String) : String :=
  String.mk
    (((s.data.dropWhile Char.isWhitespace).reverse.dropWhile
      Char.isWhitespace).reverse)

/-- The JS string `a || b`: the empty string is falsy. -/
def jsOr (a b : String) : String :=
  if a = "" then b else a

/-- Observable outcome of one submit of the structured upload form:
the network requests issued (filename, course, module), the feedback
messages shown in order, the final counters, and the reload side effects.
On a validation failure the counters keep their initial values, since the
handler returns before the loop. -/
structure SubmitResult where
  requests : List (String × String × String)
  feedbacks : List Feedback
  successCount : Nat
  allSuccess : Bool
  reloadCourses : Bool
  reloadModules : Bool
  deriving DecidableEq

/-- The `submit` handler of `structured-upload-form` (lines 495-578):
validation of the effective course, effective module and file set (each
failure returns before any request), then the sequential per-file loop,
then the aggregate message — success count on full success, failure count
out of total otherwise — and the course list reload on full success. -/
def structuredSubmit (courseSel newCourse moduleSel newModule : String)
    (files : List UploadAttempt) : SubmitResult :=
  let targetCourse := jsOr (jsTrim courseSel) (jsTrim newCourse)
  let targetModule := jsOr (jsTrim moduleSel) (jsTrim newModule)
  if targetCourse = "" then
    ⟨[], [Feedback.selecioneCurso], 0, true, false, false⟩
  else if targetModule = "" then
    ⟨[], [Feedback.selecioneModulo], 0, true, false, false⟩
  else if files.length = 0 then
    ⟨[], [Feedback.selecioneArquivo], 0, true, false, false⟩
  else
    let r := uploadLoop targetCourse targetModule files.length files 0
    if r.allSuccess then
      ⟨r.requests,
        Feedback.enviando :: r.trace
          ++ [Feedback.sucessoTotal r.successCount targetCourse targetModule],
        r.successCount, true, true, courseSel == targetCourse⟩
    else
      ⟨r.requests,
        Feedback.enviando :: r.trace
          ++ [Feedback.falhaParcial (files.length - r.successCount) files.length],
        r.successCount, false, false, false⟩

/-- The result accumulation of the React `handleUpload` loop
(`UploadPage.jsx` lines 38-64): one `results.push` per file, `success` on a
2xx response and `error` on a caught failure, never aborting the loop. -/
def handleUpload (files : List UploadAttempt) : List UploadResult :=
  files.foldl
    (fun results f =>
      results ++
        [if f.succeeds then UploadResult.mk f.name "success"
         else UploadResult.mk f.name "error"])
    []

/-- The state of the React upload page touched by `handleUpload`. -/
structure UploadPageState where
  files : List UploadAttempt
  uploading : Bool
  uploadResults : List UploadResult
  error : String
  deriving DecidableEq

/-- The full `handleUpload` handler: the empty-selection early return (sets
only the error text), otherwise the loop, `setUploadResults(results)`, and
the `finally` block `setUploading(false); setFiles([])` which runs on every
outcome. -/
def handleUploadPage (st : UploadPageState) : UploadPageState :=
  if st.files.length = 0 then
    { st with error := "Por favor, selecione pelo menos um arquivo" }
  else
    { st with
      uploading := false
      files := []
      uploadResults := handleUpload st.files
      error := "" }

/-- The five-file batch of the specification example: uploads 2 and 4 fail. -/
def exampleBatch : List UploadAttempt :=
  [UploadAttempt.mk "a1" true, UploadAttempt.mk "a2" false,
   UploadAttempt.mk "a3" true, UploadAttempt.mk "a4" false,
   UploadAttempt.mk "a5" true]

/-- The course/module form controls: the two dropdown values, the two "new
name" text fields, and the disabled flags of the module controls. -/
structure FormState where
  courseSel : String
  newCourse : String
  moduleSel : String
  newModule : String
  moduleSelDisabled : Bool
  newModuleDisabled : Bool
  deriving DecidableEq

/-- A user interaction with the form: a keystroke leaving the given text in
a "new name" field, or a dropdown change to the given value. -/
inductive FormEvent where
  | typeNewCourse (s : String)
  | typeNewModule (s : String)
  | selectCourse (v : String)
  | selectModule (v : String)
  deriving DecidableEq

/-- The four listeners of lines 458-492 and 582-612. A disabled control
fires no events, so events on a disabled control leave the state unchanged.
On a course change both registered listeners run: the first resets the
module dropdown (its later asynchronous option loading never changes the
selected value or the flags) and sets the disabled flags from the selected
value; the second clears the new-course text when a course was chosen. -/
def formStep (st : FormState) (e : FormEvent) : FormState :=
  match e with
  | FormEvent.typeNewCourse s =>
    if jsTrim s = "" then
      { st with newCourse := s }
    else
      { st with
        newCourse := s
        courseSel := ""
        moduleSel := ""
        moduleSelDisabled := true
        newModuleDisabled := true
        newModule := "" }
  | FormEvent.typeNewModule s =>
    if st.newModuleDisabled then st
    else if jsTrim s = "" then { st with newModule := s }
    else { st with newModule := s, moduleSel := "" }
  | FormEvent.selectCourse v =>
    if v = "" then
      { st with
        courseSel := v
        moduleSel := ""
        moduleSelDisabled := true
        newModuleDisabled := true }
    else
      { st with
        courseSel := v
        moduleSel := ""
        moduleSelDisabled := false
        newModuleDisabled := false
        newCourse := "" }
  | FormEvent.selectModule v =>
    if st.moduleSelDisabled then st
    else if v = "" then { st with moduleSel := v }
    else { st with moduleSel := v, newModule := "" }

/-- Mutual exclusion at each level: the dropdown selection and the
(trimmed) typed new name are never both non-empty. -/
def formMutex (st : FormState) : Prop :=
  (st.courseSel = "" ∨ jsTrim st.newCourse = "")
    ∧ (st.moduleSel = "" ∨ jsTrim st.newModule = "")

instance (st : FormState) : Decidable (formMutex st) :=
  inferInstanceAs
    (Decidable ((st.courseSel = "" ∨ jsTrim st.newCourse = "")
      ∧ (st.moduleSel = "" ∨ jsTrim st.newModule = "")))

/-- Number of fetches in flight at time `t` for the initialization sequence
of lines 621-633: `updateDashboardCards()` runs at `t = 0` and
`setInterval(updateDashboardCards, interval)` fires unconditionally at
`t = k * interval` for `k ≥ 1`; a fetch started at `s` with duration `dur`
is in flight during `[s, s + dur)`.  The first `n` invocations are
considered. -/
def inFlight (interval dur n t : Nat) : Nat :=
  ((Finset.range n).filter
    (fun k => k * interval ≤ t ∧ t < k * interval + dur)).card

/-- Display fixture: the page after a transport error. -/
def erroDisplay : Display :=
  ⟨Cell.unset, Cell.unset, Cell.unset, Cell.unset, Cell.unset, Cell.unset,
    Cell.unset, some "Erro na conexão"⟩

theorem cell_applyRealtime (d : SSEData) (st : Display) (f : CardField) :
    (applyRealtime d st).cell f
      = (writeOf (Update.realtime d) f).getD (st.cell f) := by
  obtain ⟨sys, q, w⟩ := d
  cases sys <;> cases q <;> cases w <;> cases f <;> rfl

theorem cell_applyPolled (d : DetailedStatus) (st : Display) (f : CardField) :
    (applyPolled d st).cell f
      = (writeOf (Update.polled d) f).getD (st.cell f) := by
  obtain ⟨a, b, c, sys⟩ := d
  cases a <;> cases b <;> cases c <;> cases sys <;> cases f <;> rfl

theorem cell_applyUpdate (u : Update) (st : Display) (f : CardField) :
    (applyUpdate u st).cell f = (writeOf u f).getD (st.cell f) := by
  cases u with
  | realtime d => exact cell_applyRealtime d st f
  | polled d => exact cell_applyPolled d st f

theorem lww_aux (us : List Update) (st : Display) (f : CardField) :
    (applyUpdates us st).cell f
      = lastD (us.filterMap (fun u => writeOf u f)) (st.cell f) := by
  induction us generalizing st with
  | nil => rfl
  | cons u rest ih =>
    have hfold : applyUpdates (u :: rest) st
        = applyUpdates rest (applyUpdate u st) := rfl
    rw [hfold, ih (applyUpdate u st), cell_applyUpdate u st f]
    cases hw : writeOf u f with
    | none => simp [List.filterMap_cons, hw]
    | some c => simp [List.filterMap_cons, hw, lastD]

/-- C1, counterexample. The claim as stated fails on the code: an SSE event
whose `system` block is present but carries no `cpu_percent` does not set
the CPU field in the sense of the specification (`setsOf` is `none`), yet
after it the CPU card no longer holds the value `10` set by the most recent
update that did set that field — the handler overwrote it with the dash
placeholder. -/
theorem C1_counterexample :
    setsOf
        (Update.realtime
          (SSEData.mk (some (SystemBlock.mk (some 10) none none none)) none none))
        CardField.cpu = some 10
      ∧ setsOf
        (Update.realtime
          (SSEData.mk (some (SystemBlock.mk none none none none)) none none))
        CardField.cpu = none
      ∧ (applyUpdates
          [Update.realtime
            (SSEData.mk (some (SystemBlock.mk (some 10) none none none)) none none),
           Update.realtime
            (SSEData.mk (some (SystemBlock.mk none none none none)) none none)]
          Display.blank).cell CardField.cpu ≠ Cell.num 10 := by
  decide

/-- C1, amended. For every interleaved sequence of realtime and polled
updates, each displayed metrics field holds the value written by the update
that wrote to that field most recently, by arrival order and regardless of
channel — where an update writes to exactly the fields of the top-level
blocks present in its payload, an absent subfield of a present block being
written as its dash (system) or zero (realtime queue) default — and a field
never written by any update remains unknown. -/
theorem C1_last_write_wins (us : List Update) (f : CardField) :
    (applyUpdates us Display.blank).cell f
      = lastD (us.filterMap (fun u => writeOf u f)) Cell.unset := by
  have hblank : Display.blank.cell f = Cell.unset := by cases f <;> rfl
  rw [← hblank]
  exact lww_aux us Display.blank f

/-- C4, counterexample. The claim as stated fails on the code: in a realtime
update whose `queue` block is present but carries none of the three queue
fields, the absent `total_transcriptions` field (`setsOf` is `none`) is
displayed as the number `0`, not as a placeholder. -/
theorem C4_counterexample :
    setsOf
        (Update.realtime
          (SSEData.mk none (some (QueueBlock.mk none none none)) none))
        CardField.totalTrans = none
      ∧ (applyRealtime
          (SSEData.mk none (some (QueueBlock.mk none none none)) none)
          Display.blank).totalTrans = Cell.num 0
      ∧ (applyRealtime
          (SSEData.mk none (some (QueueBlock.mk none none none)) none)
          Display.blank).queueWeb = Cell.num 0
      ∧ (applyRealtime
          (SSEData.mk none (some (QueueBlock.mk none none none)) none)
          Display.blank).queueGdrive = Cell.num 0
      ∧ Cell.num 0 ≠ Cell.dash ∧ Cell.num 0 ≠ Cell.unset := by
  decide

/-- C4, amended. An absent system field within a present `system` block is
rendered as the dash placeholder, never as zero; but the three queue fields,
when absent from a present realtime `queue` block, are displayed as `0`; a
queue field absent from the top level of a polled response leaves its card
untouched. -/
theorem C4_absent_rendering (mp mu mt : Option Nat) (a b c : Option Nat)
    (w : Option WorkersBlock) (sys : Option SystemBlock) (st : Display) :
    ((applyRealtime (SSEData.mk none (some (QueueBlock.mk none none none)) w)
        st).totalTrans = Cell.num 0
      ∧ (applyRealtime (SSEData.mk none (some (QueueBlock.mk none none none)) w)
        st).queueWeb = Cell.num 0
      ∧ (applyRealtime (SSEData.mk none (some (QueueBlock.mk none none none)) w)
        st).queueGdrive = Cell.num 0)
    ∧ ((applyRealtime (SSEData.mk (some (SystemBlock.mk none mp mu mt)) none w)
        st).cpu = Cell.dash
      ∧ (applyPolled (DetailedStatus.mk a b c (some (SystemBlock.mk none mp mu mt)))
        st).cpu = Cell.dash)
    ∧ ((applyPolled (DetailedStatus.mk none b c sys) st).totalTrans = st.totalTrans
      ∧ (applyPolled (DetailedStatus.mk a none c sys) st).queueWeb = st.queueWeb
      ∧ (applyPolled (DetailedStatus.mk a b none sys) st).queueGdrive
        = st.queueGdrive) := by
  refine ⟨⟨?_, ?_, ?_⟩, ⟨?_, ?_⟩, ?_, ?_, ?_⟩
  · cases w <;> rfl
  · cases w <;> rfl
  · cases w <;> rfl
  · cases w <;> rfl
  · cases a <;> cases b <;> cases c <;> rfl
  · cases b <;> cases c <;> cases sys <;> rfl
  · cases a <;> cases c <;> cases sys <;> rfl
  · cases a <;> cases b <;> cases sys <;> rfl

/-- C5, counterexample. The claim as stated fails on the code: after a
realtime update sets the CPU card to `7`, a second realtime update whose
`system` block is present but carries no `cpu_percent` (the field is not
present in the update, `setsOf` is `none`) does not keep the previous value:
it resets the card to the dash placeholder. -/
theorem C5_counterexample :
    (applyRealtime
        (SSEData.mk (some (SystemBlock.mk (some 7) none none none)) none none)
        Display.blank).cpu = Cell.num 7
      ∧ setsOf
        (Update.realtime
          (SSEData.mk (some (SystemBlock.mk none none none none)) none none))
        CardField.cpu = none
      ∧ (applyRealtime
          (SSEData.mk (some (SystemBlock.mk none none none none)) none none)
          (applyRealtime
            (SSEData.mk (some (SystemBlock.mk (some 7) none none none)) none none)
            Display.blank)).cpu ≠ Cell.num 7 := by
  decide

/-- C5, amended. Fields of the top-level blocks absent from an incoming
update are left untouched, and a top-level polled field absent from a polled
response is left untouched; but a subfield absent from a present block is
reset (dash for system fields, `0` for realtime queue fields), and a failed
poll resets the three queue cells and the CPU and RAM cells to the error
text while leaving the remaining cells untouched. -/
theorem C5_frame (sys : Option SystemBlock) (q : Option QueueBlock)
    (w : Option WorkersBlock) (a b c mp mu mt : Option Nat) (st : Display) :
    ((applyRealtime (SSEData.mk none q w) st).cpu = st.cpu
      ∧ (applyRealtime (SSEData.mk none q w) st).ram = st.ram
      ∧ (applyRealtime (SSEData.mk none q w) st).ramUsed = st.ramUsed
      ∧ (applyRealtime (SSEData.mk none q w) st).ramTotal = st.ramTotal)
    ∧ ((applyRealtime (SSEData.mk sys none w) st).totalTrans = st.totalTrans
      ∧ (applyRealtime (SSEData.mk sys none w) st).queueWeb = st.queueWeb
      ∧ (applyRealtime (SSEData.mk sys none w) st).queueGdrive = st.queueGdrive)
    ∧ (applyRealtime (SSEData.mk sys q none) st).systemStatus = st.systemStatus
    ∧ ((applyPolled (DetailedStatus.mk none b c sys) st).totalTrans = st.totalTrans
      ∧ (applyPolled (DetailedStatus.mk a b c none) st).cpu = st.cpu)
    ∧ ((applyRealtime (SSEData.mk (some (SystemBlock.mk none mp mu mt)) q w)
        st).cpu = Cell.dash
      ∧ (applyRealtime (SSEData.mk sys (some (QueueBlock.mk none b c)) w)
        st).totalTrans = Cell.num 0
      ∧ (applyPolledError st).cpu = Cell.erro
      ∧ (applyPolledError st).totalTrans = Cell.erro
      ∧ (applyPolledError st).ramUsed = st.ramUsed
      ∧ (applyPolledError st).ramTotal = st.ramTotal
      ∧ (applyPolledError st).systemStatus = st.systemStatus) := by
  refine ⟨⟨?_, ?_, ?_, ?_⟩, ⟨?_, ?_, ?_⟩, ?_, ⟨?_, ?_⟩,
    ?_, ?_, rfl, rfl, rfl, rfl, rfl⟩
  · cases q <;> cases w <;> rfl
  · cases q <;> cases w <;> rfl
  · cases q <;> cases w <;> rfl
  · cases q <;> cases w <;> rfl
  · cases sys <;> cases w <;> rfl
  · cases sys <;> cases w <;> rfl
  · cases sys <;> cases w <;> rfl
  · cases sys <;> cases q <;> rfl
  · cases b <;> cases c <;> cases sys <;> rfl
  · cases a <;> cases b <;> cases c <;> rfl
  · cases q <;> cases w <;> rfl
  · cases sys <;> cases w <;> rfl

theorem workerStatus_running (o : Option WorkerInfo) :
    workerStatus o = "running" ↔ o = some (WorkerInfo.mk (some "running")) := by
  rcases o with _ | ⟨s⟩
  · constructor
    · intro h; exact absurd h (by decide)
    · intro h; exact absurd h (by simp)
  · rcases s with _ | s
    · constructor
      · intro h; exact absurd h (by decide)
      · intro h; simp at h
    · by_cases hs : s = ""
      · subst hs
        constructor
        · intro h; exact absurd h (by decide)
        · intro h; simp at h
      · constructor
        · intro h
          have hx : s = "running" := by simpa [workerStatus, hs] using h
          rw [hx]
        · intro h
          have hx : s = "running" := by simpa using h
          simp [workerStatus, hx]

/-- C8: an inbound push-stream message whose payload fails to parse is
logged and discarded — the display state, including the user-visible status
text, is unchanged, and the handler is a total function, so no exception
escapes into the rendering path; a transport-level error writes the error
status text, and no parsed message can produce that error status (it only
ever writes the operational or problem status), so only a transport-level
error moves the connection status to the errored text. -/
theorem C8_error_containment (st : Display) :
    sseStep st SSEInput.malformedMessage = st
    ∧ (sseStep st SSEInput.transportError).systemStatus = some "Erro na conexão"
    ∧ ∀ d : SSEData,
        (sseStep st (SSEInput.message d)).systemStatus = some "Erro na conexão" →
        st.systemStatus = some "Erro na conexão" := by
  refine ⟨rfl, rfl, ?_⟩
  intro d h
  obtain ⟨sys, q, w⟩ := d
  cases w with
  | none => cases sys <;> cases q <;> exact h
  | some w =>
    exfalso
    have hst : (sseStep st
          (SSEInput.message (SSEData.mk sys q (some w)))).systemStatus
        = some (overallStatus w) := by cases sys <;> cases q <;> rfl
    rw [hst] at h
    have h2 := Option.some.inj h
    unfold overallStatus at h2
    by_cases hc : workerStatus w.web = "running"
        ∧ workerStatus w.gdrive = "running"
    · rw [if_pos hc] at h2; exact absurd h2 (by decide)
    · rw [if_neg hc] at h2; exact absurd h2 (by decide)

/-- C8, witness. -/
theorem C8_witness :
    sseStep erroDisplay SSEInput.malformedMessage = erroDisplay
    ∧ (sseStep erroDisplay SSEInput.transportError).systemStatus
      = some "Erro na conexão"
    ∧ erroDisplay.systemStatus = some "Erro na conexão" :=
  ⟨(C8_error_containment erroDisplay).1,
    (C8_error_containment erroDisplay).2.1,
    (C8_error_containment erroDisplay).2.2 (SSEData.mk none none none)
      (by decide)⟩

/-- C9: when a push event carries worker data, the overall system status is
displayed as the operational text exactly when both the web worker and the
gdrive worker report status `running`; a missing worker entry, a missing or
empty status, or any other status value yields the problem text. -/
theorem C9_overall_status (sys : Option SystemBlock) (q : Option QueueBlock)
    (w : WorkersBlock) (st : Display) :
    (applyRealtime (SSEData.mk sys q (some w)) st).systemStatus
      = some (if workerStatus w.web = "running"
            ∧ workerStatus w.gdrive = "running"
          then "Operacional" else "Problemas")
    ∧ ((applyRealtime (SSEData.mk sys q (some w)) st).systemStatus
        = some "Operacional"
      ↔ w.web = some (WorkerInfo.mk (some "running"))
        ∧ w.gdrive = some (WorkerInfo.mk (some "running"))) := by
  have h1 : (applyRealtime (SSEData.mk sys q (some w)) st).systemStatus
      = some (overallStatus w) := by cases sys <;> cases q <;> rfl
  constructor
  · rw [h1]; rfl
  · rw [h1]
    unfold overallStatus
    by_cases hc : workerStatus w.web = "running"
        ∧ workerStatus w.gdrive = "running"
    · rw [if_pos hc]
      simp only [Option.some.injEq]
      constructor
      · intro _
        exact ⟨(workerStatus_running w.web).mp hc.1,
          (workerStatus_running w.gdrive).mp hc.2⟩
      · intro _; trivial
    · rw [if_neg hc]
      simp only [Option.some.injEq]
      constructor
      · intro h; exact absurd h (by decide)
      · intro hr
        exact absurd ⟨(workerStatus_running w.web).mpr hr.1,
          (workerStatus_running w.gdrive).mpr hr.2⟩ hc

/-- C3, counterexample. The claim as stated fails on the code: the
initialization uses a bare `setInterval(updateDashboardCards, ...)` with no
busy flag, so with interval `100` and a fetch lasting `150` the tick at
`t = 100` is not skipped and two fetches are in flight at `t = 100`. -/
theorem C3_counterexample :
    inFlight 100 150 2 100 = 2 ∧ 1 < inFlight 100 150 2 100 :=
  ⟨by decide, by decide⟩

/-- C3, amended. Every interval tick issues a fetch unconditionally, so the
scheduler keeps at most one fetch in flight only when the fetch duration
does not exceed the interval; with interval `100` and duration `150` the
tick at `t = 100` is not skipped and two fetches are in flight. -/
theorem C3_overlap (interval dur n t : Nat) (hfast : dur ≤ interval) :
    inFlight interval dur n t ≤ 1 ∧ inFlight 100 150 2 100 = 2 := by
  constructor
  · apply Finset.card_le_one.mpr
    intro a ha b hb
    simp only [Finset.mem_filter, Finset.mem_range] at ha hb
    obtain ⟨-, ha1, ha2⟩ := ha
    obtain ⟨-, hb1, hb2⟩ := hb
    by_contra hne
    rcases Nat.lt_trichotomy a b with hab | hab | hab
    · have h2 : (a + 1) * interval ≤ b * interval :=
        Nat.mul_le_mul_right interval hab
      have h3 : a * interval + interval ≤ b * interval := by
        calc a * interval + interval = (a + 1) * interval := by ring
        _ ≤ b * interval := h2
      have h4 : t < t :=
        lt_of_lt_of_le
          (lt_of_lt_of_le ha2 (Nat.add_le_add_left hfast (a * interval)))
          (le_trans h3 hb1)
      exact absurd h4 (lt_irrefl t)
    · exact hne hab
    · have h2 : (b + 1) * interval ≤ a * interval :=
        Nat.mul_le_mul_right interval hab
      have h3 : b * interval + interval ≤ a * interval := by
        calc b * interval + interval = (b + 1) * interval := by ring
        _ ≤ a * interval := h2
      have h4 : t < t :=
        lt_of_lt_of_le
          (lt_of_lt_of_le hb2 (Nat.add_le_add_left hfast (b * interval)))
          (le_trans h3 ha1)
      exact absurd h4 (lt_irrefl t)
  · decide

/-- C3, witness. -/
theorem C3_witness :
    inFlight 100 100 5 250 ≤ 1 ∧ inFlight 100 150 2 100 = 2 :=
  C3_overlap 100 100 5 250 (by decide)

theorem formStep_mutex (st : FormState) (e : FormEvent) (h : formMutex st) :
    formMutex (formStep st e) := by
  obtain ⟨hc, hm⟩ := h
  cases e with
  | typeNewCourse s =>
    by_cases hs : jsTrim s = "" <;>
      simp [formStep, formMutex, hs] <;> tauto
  | typeNewModule s =>
    by_cases hd : st.newModuleDisabled = true <;>
      by_cases hs : jsTrim s = "" <;>
      simp [formStep, formMutex, hd, hs] <;> tauto
  | selectCourse v =>
    by_cases hv : v = "" <;> simp [formStep, formMutex, hv] <;> tauto
  | selectModule v =>
    by_cases hd : st.moduleSelDisabled = true <;>
      by_cases hv : v = "" <;>
      simp [formStep, formMutex, hd, hv] <;> tauto

theorem foldl_mutex (es : List FormEvent) (st : FormState)
    (h : formMutex st) : formMutex (es.foldl formStep st) := by
  induction es generalizing st with
  | nil => exact h
  | cons e rest ih => exact ih (formStep st e) (formStep_mutex st e h)

/-- C6: after every keystroke and dropdown change reachable from the blank
form, at each level at most one of the dropdown selection and the (trimmed)
typed new name is non-empty; typing a non-empty new course forces the course
dropdown to the empty sentinel and resets, disables and clears the module
controls; selecting an existing course clears the new-course text; and
symmetrically typing a non-empty new module clears the module selection and
selecting a module clears the new-module text. -/
theorem C6_mutual_exclusion :
    (∀ (d1 d2 : Bool) (es : List FormEvent),
        formMutex (es.foldl formStep (FormState.mk "" "" "" "" d1 d2)))
    ∧ (∀ (st : FormState) (s : String), jsTrim s ≠ "" →
        (formStep st (FormEvent.typeNewCourse s)).courseSel = ""
        ∧ (formStep st (FormEvent.typeNewCourse s)).moduleSel = ""
        ∧ (formStep st (FormEvent.typeNewCourse s)).moduleSelDisabled = true
        ∧ (formStep st (FormEvent.typeNewCourse s)).newModuleDisabled = true
        ∧ (formStep st (FormEvent.typeNewCourse s)).newModule = "")
    ∧ (∀ (st : FormState) (v : String), v ≠ "" →
        (formStep st (FormEvent.selectCourse v)).newCourse = "")
    ∧ (∀ (st : FormState) (s : String), jsTrim s ≠ "" →
        st.newModuleDisabled = false →
        (formStep st (FormEvent.typeNewModule s)).moduleSel = "")
    ∧ (∀ (st : FormState) (v : String), v ≠ "" →
        st.moduleSelDisabled = false →
        (formStep st (FormEvent.selectModule v)).newModule = "") := by
  refine ⟨?_, ?_, ?_, ?_, ?_⟩
  · intro d1 d2 es
    exact foldl_mutex es _ ⟨Or.inl rfl, Or.inl rfl⟩
  · intro st s hs
    simp [formStep, if_neg hs]
  · intro st v hv
    simp [formStep, if_neg hv]
  · intro st s hs hd
    simp [formStep, hd, if_neg hs]
  · intro st v hv hd
    simp [formStep, hd, if_neg hv]

/-- C6, witness. -/
theorem C6_witness :
    formMutex (List.foldl formStep (FormState.mk "" "" "" "" true true)
      [FormEvent.selectCourse "CursoA", FormEvent.selectModule "Mod1",
       FormEvent.typeNewCourse "Novo"])
    ∧ (formStep (FormState.mk "CursoA" "" "Mod1" "" false false)
        (FormEvent.typeNewCourse "Novo")).courseSel = ""
    ∧ (formStep (FormState.mk "" "Novo" "" "" true true)
        (FormEvent.selectCourse "CursoA")).newCourse = ""
    ∧ (formStep (FormState.mk "CursoA" "" "" "" false false)
        (FormEvent.typeNewModule "NovoMod")).moduleSel = ""
    ∧ (formStep (FormState.mk "CursoA" "" "" "NovoMod" false false)
        (FormEvent.selectModule "Mod1")).newModule = "" :=
  ⟨C6_mutual_exclusion.1 true true _,
    (C6_mutual_exclusion.2.1 _ "Novo" (by decide)).1,
    C6_mutual_exclusion.2.2.1 _ "CursoA" (by decide),
    C6_mutual_exclusion.2.2.2.1 _ "NovoMod" (by decide) rfl,
    C6_mutual_exclusion.2.2.2.2 _ "Mod1" (by decide) rfl⟩

theorem dropLast_append_single {α : Type} (l : List α) (a : α) :
    (l ++ [a]).dropLast = l := by
  induction l with
  | nil => rfl
  | cons x xs ih =>
    cases xs with
    | nil => rfl
    | cons y ys => simpa using ih

theorem uploadLoop_requests (course modName : String) (n : Nat)
    (files : List UploadAttempt) (sc : Nat) :
    (uploadLoop course modName n files sc).requests
      = files.map (fun f => (f.name, course, modName)) := by
  induction files generalizing sc with
  | nil => rfl
  | cons f rest ih =>
    cases hf : f.succeeds <;> simp [uploadLoop, hf, ih]

theorem uploadLoop_count (course modName : String) (n : Nat)
    (files : List UploadAttempt) (sc : Nat) :
    (uploadLoop course modName n files sc).successCount
      = sc + (files.filter (fun f => f.succeeds)).length := by
  induction files generalizing sc with
  | nil => simp [uploadLoop]
  | cons f rest ih =>
    cases hf : f.succeeds <;> simp [uploadLoop, hf, ih] <;> omega

theorem uploadLoop_trace (course modName : String) (n : Nat)
    (files : List UploadAttempt) (sc : Nat) :
    (uploadLoop course modName n files sc).trace.map feedbackIsSuccess
      = files.map (fun f => f.succeeds) := by
  induction files generalizing sc with
  | nil => rfl
  | cons f rest ih =>
    cases hf : f.succeeds <;> simp [uploadLoop, hf, ih, feedbackIsSuccess]

theorem foldl_push {α β : Type} (g : α → β) (l : List α) (acc : List β) :
    l.foldl (fun results f => results ++ [g f]) acc = acc ++ l.map g := by
  induction l generalizing acc with
  | nil => simp
  | cons x xs ih => simp [ih]

theorem handleUpload_eq_map (files : List UploadAttempt) :
    handleUpload files
      = files.map (fun f =>
          if f.succeeds then UploadResult.mk f.name "success"
          else UploadResult.mk f.name "error") := by
  simpa using foldl_push
    (fun f =>
      if f.succeeds then UploadResult.mk f.name "success"
      else UploadResult.mk f.name "error")
    files []

theorem structuredSubmit_requests (courseSel newCourse moduleSel newModule :
      String) (files : List UploadAttempt)
    (h1 : jsOr (jsTrim courseSel) (jsTrim newCourse) ≠ "")
    (h2 : jsOr (jsTrim moduleSel) (jsTrim newModule) ≠ "")
    (h3 : files ≠ []) :
    (structuredSubmit courseSel newCourse moduleSel newModule files).requests
      = files.map (fun f =>
          (f.name, jsOr (jsTrim courseSel) (jsTrim newCourse),
            jsOr (jsTrim moduleSel) (jsTrim newModule))) := by
  have hn : ¬files.length = 0 := fun h => h3 (List.length_eq_zero.mp h)
  simp only [structuredSubmit, if_neg h1, if_neg h2, if_neg hn]
  split <;> simpa using uploadLoop_requests _ _ files.length files 0

theorem structuredSubmit_count (courseSel newCourse moduleSel newModule :
      String) (files : List UploadAttempt)
    (h1 : jsOr (jsTrim courseSel) (jsTrim newCourse) ≠ "")
    (h2 : jsOr (jsTrim moduleSel) (jsTrim newModule) ≠ "")
    (h3 : files ≠ []) :
    (structuredSubmit courseSel newCourse moduleSel newModule
        files).successCount
      = (files.filter (fun f => f.succeeds)).length := by
  have hn : ¬files.length = 0 := fun h => h3 (List.length_eq_zero.mp h)
  simp only [structuredSubmit, if_neg h1, if_neg h2, if_neg hn]
  split <;> simpa using uploadLoop_count _ _ files.length files 0

theorem structuredSubmit_trace (courseSel newCourse moduleSel newModule :
      String) (files : List UploadAttempt)
    (h1 : jsOr (jsTrim courseSel) (jsTrim newCourse) ≠ "")
    (h2 : jsOr (jsTrim moduleSel) (jsTrim newModule) ≠ "")
    (h3 : files ≠ []) :
    ((structuredSubmit courseSel newCourse moduleSel newModule
        files).feedbacks.drop 1).dropLast.map feedbackIsSuccess
      = files.map (fun f => f.succeeds) := by
  have hn : ¬files.length = 0 := fun h => h3 (List.length_eq_zero.mp h)
  simp only [structuredSubmit, if_neg h1, if_neg h2, if_neg hn]
  split <;> simp [dropLast_append_single, uploadLoop_trace]

/-- C2: the structured upload workflow submits the files one at a time in
selection order (one request per file, each carrying the effective course
and module), a failure on one file does not prevent the remaining files
from being attempted, the workflow shows exactly one per-file feedback
entry per input file in submission order whose success/failure outcomes
match the per-file outcomes, and the aggregate is computed from the success
count out of the total count; the React upload page additionally keeps one
per-file result per input file in submission order.  On the five-file batch
with failures on files 2 and 4, the per-file outcome sequence is
success, failure, success, failure, success, the success count is 3 of 5,
and the progress feedback after the last success reads the count as three
of five. -/
theorem C2_batch_report (courseSel newCourse moduleSel newModule : String)
    (files : List UploadAttempt)
    (h1 : jsOr (jsTrim courseSel) (jsTrim newCourse) ≠ "")
    (h2 : jsOr (jsTrim moduleSel) (jsTrim newModule) ≠ "")
    (h3 : files ≠ []) :
    ((structuredSubmit courseSel newCourse moduleSel newModule files).requests
        = files.map (fun f =>
            (f.name, jsOr (jsTrim courseSel) (jsTrim newCourse),
              jsOr (jsTrim moduleSel) (jsTrim newModule)))
      ∧ (structuredSubmit courseSel newCourse moduleSel newModule
          files).successCount = (files.filter (fun f => f.succeeds)).length
      ∧ ((structuredSubmit courseSel newCourse moduleSel newModule
          files).feedbacks.drop 1).dropLast.map feedbackIsSuccess
        = files.map (fun f => f.succeeds))
    ∧ ((handleUpload files).map UploadResult.filename
        = files.map UploadAttempt.name
      ∧ (handleUpload files).map UploadResult.status
        = files.map (fun f => if f.succeeds then "success" else "error"))
    ∧ ((structuredSubmit "" "CursoX" "" "ModY" exampleBatch).successCount = 3
      ∧ (structuredSubmit "" "CursoX" "" "ModY" exampleBatch).requests.length
        = 5
      ∧ ((structuredSubmit "" "CursoX" "" "ModY"
          exampleBatch).feedbacks.drop 1).dropLast.map feedbackIsSuccess
        = [true, false, true, false, true]
      ∧ Feedback.progresso 3 5
        ∈ (structuredSubmit "" "CursoX" "" "ModY" exampleBatch).feedbacks
      ∧ Feedback.render (Feedback.progresso 3 5)
        = "Enviando: 3/5 arquivos..."
      ∧ (structuredSubmit "" "CursoX" "" "ModY"
          exampleBatch).feedbacks.getLast? = some (Feedback.falhaParcial 2 5)) := by
  refine ⟨⟨structuredSubmit_requests courseSel newCourse moduleSel newModule
      files h1 h2 h3,
    structuredSubmit_count courseSel newCourse moduleSel newModule
      files h1 h2 h3,
    structuredSubmit_trace courseSel newCourse moduleSel newModule
      files h1 h2 h3⟩, ⟨?_, ?_⟩,
    by decide, by decide, by decide, by decide, by decide, by decide⟩
  · rw [handleUpload_eq_map]
    simp only [List.map_map]
    apply List.map_congr_left
    intro f _
    cases hf : f.succeeds <;> simp [hf, UploadAttempt.name]
  · rw [handleUpload_eq_map]
    simp only [List.map_map]
    apply List.map_congr_left
    intro f _
    cases hf : f.succeeds <;> simp [hf]

/-- C2, witness. -/
theorem C2_witness :
    ((structuredSubmit "" "CursoX" "" "ModY" exampleBatch).requests
        = exampleBatch.map (fun f =>
            (f.name, jsOr (jsTrim "") (jsTrim "CursoX"),
              jsOr (jsTrim "") (jsTrim "ModY")))
      ∧ (structuredSubmit "" "CursoX" "" "ModY" exampleBatch).successCount
        = (exampleBatch.filter (fun f => f.succeeds)).length
      ∧ ((structuredSubmit "" "CursoX" "" "ModY"
          exampleBatch).feedbacks.drop 1).dropLast.map feedbackIsSuccess
        = exampleBatch.map (fun f => f.succeeds))
    ∧ ((handleUpload exampleBatch).map UploadResult.filename
        = exampleBatch.map UploadAttempt.name
      ∧ (handleUpload exampleBatch).map UploadResult.status
        = exampleBatch.map (fun f => if f.succeeds then "success" else "error"))
    ∧ ((structuredSubmit "" "CursoX" "" "ModY" exampleBatch).successCount = 3
      ∧ (structuredSubmit "" "CursoX" "" "ModY" exampleBatch).requests.length
        = 5
      ∧ ((structuredSubmit "" "CursoX" "" "ModY"
          exampleBatch).feedbacks.drop 1).dropLast.map feedbackIsSuccess
        = [true, false, true, false, true]
      ∧ Feedback.progresso 3 5
        ∈ (structuredSubmit "" "CursoX" "" "ModY" exampleBatch).feedbacks
      ∧ Feedback.render (Feedback.progresso 3 5)
        = "Enviando: 3/5 arquivos..."
      ∧ (structuredSubmit "" "CursoX" "" "ModY"
          exampleBatch).feedbacks.getLast? = some (Feedback.falhaParcial 2 5)) :=
  C2_batch_report "" "CursoX" "" "ModY" exampleBatch (by decide) (by decide)
    (by decide)

/-- C7: when the effective course (selected course, else the trimmed typed
new course) is empty, or the effective module is empty, or the file set is
empty, the structured submit handler rejects the submission before issuing
any network request; in particular with an empty course selection and an
empty new-course text no request is sent regardless of the module and file
inputs. -/
theorem C7_validation (courseSel newCourse moduleSel newModule : String)
    (files : List UploadAttempt)
    (h : jsOr (jsTrim courseSel) (jsTrim newCourse) = ""
      ∨ jsOr (jsTrim moduleSel) (jsTrim newModule) = ""
      ∨ files = []) :
    (structuredSubmit courseSel newCourse moduleSel newModule files).requests
        = []
      ∧ (structuredSubmit courseSel newCourse moduleSel newModule
          files).successCount = 0 := by
  rcases h with h | h | h
  · simp [structuredSubmit, h]
  · by_cases ha : jsOr (jsTrim courseSel) (jsTrim newCourse) = "" <;>
      simp [structuredSubmit, ha, h]
  · subst h
    by_cases ha : jsOr (jsTrim courseSel) (jsTrim newCourse) = "" <;>
      by_cases hb : jsOr (jsTrim moduleSel) (jsTrim newModule) = "" <;>
      simp [structuredSubmit, ha, hb]

/-- C7, witness: empty course selection and empty new-course text, with a
non-empty module and file set. -/
theorem C7_witness :
    (structuredSubmit "" "" "Mod" "X" [UploadAttempt.mk "f" true]).requests
        = []
      ∧ (structuredSubmit "" "" "Mod" "X"
          [UploadAttempt.mk "f" true]).successCount = 0 :=
  C7_validation "" "" "Mod" "X" [UploadAttempt.mk "f" true]
    (Or.inl (by decide))

/-- C10: in the React upload page, after a batch upload of a non-empty file
selection completes, the selected-files list is reset to empty regardless of
the per-file outcomes (the reset happens in the `finally` block), while the
per-file result list of that batch — one result per input file — is
retained for display. -/
theorem C10_files_cleared (st : UploadPageState) (h : st.files ≠ []) :
    (handleUploadPage st).files = []
      ∧ (handleUploadPage st).uploadResults = handleUpload st.files
      ∧ (handleUploadPage st).uploadResults.length = st.files.length
      ∧ (handleUploadPage st).uploading = false := by
  have hn : ¬st.files.length = 0 := fun hz => h (List.length_eq_zero.mp hz)
  have hlen : (handleUpload st.files).length = st.files.length := by
    rw [handleUpload_eq_map]; exact List.length_map st.files _
  refine ⟨?_, ?_, ?_, ?_⟩ <;> simp [handleUploadPage, h, hlen]

/-- C10, witness: a batch in which every upload fails. -/
theorem C10_witness :
    UploadPageState.files
        (handleUploadPage
          (UploadPageState.mk [UploadAttempt.mk "a" false] true [] "")) = []
      ∧ UploadPageState.uploadResults
          (handleUploadPage
            (UploadPageState.mk [UploadAttempt.mk "a" false] true [] ""))
        = handleUpload
            (UploadPageState.files
              (UploadPageState.mk [UploadAttempt.mk "a" false] true [] ""))
      ∧ (UploadPageState.uploadResults
          (handleUploadPage
            (UploadPageState.mk [UploadAttempt.mk "a" false] true [] ""))).length
        = (UploadPageState.files
            (UploadPageState.mk [UploadAttempt.mk "a" false] true [] "")).length
      ∧ UploadPageState.uploading
          (handleUploadPage
            (UploadPageState.mk [UploadAttempt.mk "a" false] true [] ""))
        = false :=
  C10_files_cleared (UploadPageState.mk [UploadAttempt.mk "a" false] true [] "")
    (by decide)

end WebUI
